import Mathlib

/-!
Shallow embedding of the pyxunlei client (src/pyxunlei/pyxunlei.py).

The client talks to a download-management web service over HTTP.  All
network interaction is modelled by passing the decoded responses in
explicitly as an environment; every place the Python code may raise an
exception while reading a response is modelled by a `raise` constructor of
the corresponding outcome type.  Python integers become `Nat`/`Int`,
Python `None`-able fields become `Option`, and JSON payload fields that the
code renders with `str(...)` become `toString`.
-/

/-- Outcome of reading and decoding one HTTP response: either some
exception was raised while performing the request or decoding its JSON
body (in `download_magnetic` and the task-control operations every such
exception is caught and mapped to a failure value), or a decoded value. -/
inductive JsonOutcome (α : Type) where
  | raise
  | ok (value : α)
deriving DecidableEq, Repr

/-- One leaf file of a resolved resource tree (class `TaskFile`). -/
structure TaskFile where
  index : Nat
  file_name : String
  file_size : Nat
deriving DecidableEq, Repr

mutual

/-- A node of the resource tree returned by the resource-listing endpoint.
A node is a directory (`is_dir` truthy, children under `dir.resources`) or
a file (carrying an optional `file_index` and a `file_size`).  Both node
kinds expose `name` and `file_count` metadata fields, which the code reads
off the first root resource. -/
inductive Resource where
  | file (file_index : Option Nat) (name : String) (file_size : Nat) (file_count : Nat)
  | dir (name : String) (file_count : Nat) (children : ResourceList)

/-- A list of resource-tree nodes, kept as a separate inductive (rather
than `List Resource`) so that all recursion over the tree is structural. -/
inductive ResourceList where
  | nil
  | cons (r : Resource) (rs : ResourceList)

end

/-- The `name` metadata field of a resource node. -/
def Resource.name : Resource → String
  | .file _ n _ _ => n
  | .dir n _ _ => n

/-- The `file_count` metadata field of a resource node. -/
def Resource.file_count : Resource → Nat
  | .file _ _ _ c => c
  | .dir _ c _ => c

/-- The index recorded for a file node: the Python code tests
`not resource.get(file_index)`, which is truthy both when the field is
absent (`None`) and when it equals `0`; in both cases `0` is recorded,
otherwise the declared value. -/
def fileIndexOrZero (fi : Option Nat) : Nat :=
  match fi with
  | none => 0
  | some 0 => 0
  | some i => i

/-- The nested function `helper` of `download_magnetic`: flattens a
resource forest depth-first in pre-order, appending one `TaskFile` per
file node and recursing through directory nodes. -/
def helper : ResourceList → List TaskFile
  | .nil => []
  | .cons (.file fi n sz _) rest =>
      { index := fileIndexOrZero fi, file_name := n, file_size := sz } :: helper rest
  | .cons (.dir _ _ children) rest => helper children ++ helper rest

/-- Number of file-typed nodes in a resource forest (specification-side
count used to state the leaf-count property of flattening). -/
def countFiles : ResourceList → Nat
  | .nil => 0
  | .cons (.file _ _ _ _) rest => 1 + countFiles rest
  | .cons (.dir _ _ children) rest => countFiles children + countFiles rest

/-- Default lower bound of `filter_file_by_size`: `500 * 1024 * 1024`. -/
def default_min_size : Nat := 500 * 1024 * 1024

/-- Default upper bound of `filter_file_by_size`: `40 * 1024 * 1024 * 1024`. -/
def default_max_size : Nat := 40 * 1024 * 1024 * 1024

/-- Method `filter_file_by_size`: an empty input returns `[]`, otherwise
the entries whose size lies in the inclusive range are kept. -/
def filter_file_by_size (task_files : List TaskFile) (min_size max_size : Nat) :
    List TaskFile :=
  match task_files with
  | [] => []
  | _ => task_files.filter (fun i => min_size ≤ i.file_size ∧ i.file_size ≤ max_size)

/-- One raw task record of a task-listing response, with the fields the
mapping code reads: `name`, `file_size` (converted with `int(...)`),
optional `progress`, `params.real_path` and optional `params.speed`. -/
structure RawTask where
  name : String
  file_size : Int
  progress : Option Int
  real_path : String
  speed : Option Int
deriving DecidableEq, Repr

/-- The normalized task record (class `TaskInfo`); timestamp fields are
omitted from the model, `origin` keeps the raw record. -/
structure TaskInfo where
  name : String
  file_name : String
  file_size : Int
  progress : Int
  real_path : String
  speed : Int
  origin : RawTask
deriving DecidableEq, Repr

/-- Shared per-record mapping of `completed_tasks` and `uncompleted_tasks`:
both `name` and `file_name` are populated from the `name` of the record;
`progress` follows the Python truthiness idiom on the raw progress field
(absent or `0` both yield `0`); `speed` defaults to `0`. -/
def taskinfo_of_raw (t : RawTask) : TaskInfo :=
  { name := t.name
    file_name := t.name
    file_size := t.file_size
    progress := match t.progress with
      | none => 0
      | some p => if p = 0 then 0 else p
    real_path := t.real_path
    speed := t.speed.getD 0
    origin := t }

/-- Method `completed_tasks`, as a function of the decoded `tasks` field of
the listing response: absent (`none`) or empty lists give `[]`, otherwise
each record is mapped to a `TaskInfo`. -/
def completed_tasks (tasks : Option (List RawTask)) : List TaskInfo :=
  match tasks with
  | none => []
  | some [] => []
  | some ts => ts.map taskinfo_of_raw

/-- Method `uncompleted_tasks`; its record mapping is the same as that of
`completed_tasks` (only the phase filter in the query differs). -/
def uncompleted_tasks (tasks : Option (List RawTask)) : List TaskInfo :=
  match tasks with
  | none => []
  | some [] => []
  | some ts => ts.map taskinfo_of_raw

/-- The kinds of HTTP requests `download_magnetic` can issue, in the order
they appear in the code: resource listing, task listing (once for
completed, once for uncompleted), folder creation, task creation. -/
inductive NetCall where
  | resourceList
  | taskList
  | folderCreate
  | taskCreate
deriving DecidableEq, Repr

/-- The JSON body posted to the task-creation endpoint, with the `params`
sub-object inlined (`target`, `url`, `total_file_count`,
`parent_folder_id`, `sub_file_index`, `file_id`). -/
structure TaskPayload where
  type : String
  name : String
  file_name : String
  file_size : String
  space : String
  target : String
  url : String
  total_file_count : String
  parent_folder_id : Option String
  sub_file_index : String
  file_id : String
deriving DecidableEq, Repr

/-- Environment of one `download_magnetic` run: the decoded responses of
the at most five requests it can issue.  `resourceResp` carries the status
code and the `list.resources` forest (`raise` covers a request or JSON
error); `folderResp` carries `file.id` of the folder-creation response
(`raise` also covers a missing `file` key, where the subsequent attribute
access on None raises); `taskResp` carries the optional `HttpStatus` field. -/
structure MagnetEnv where
  resourceResp : JsonOutcome (Nat × ResourceList)
  completedResp : JsonOutcome (Option (List RawTask))
  uncompletedResp : JsonOutcome (Option (List RawTask))
  folderResp : JsonOutcome (Option String)
  taskResp : JsonOutcome (Option Int)

/-- Result of a `download_magnetic` run: the returned outcome (`0` failed,
`1` created, `2` already exists; the `return False` on a multilevel
subdirectory is modelled as `0` since in Python `False == 0`), the list of
requests issued, and the task-creation body if that request was issued. -/
structure MagnetResult where
  outcome : Nat
  calls : List NetCall
  payload : Option TaskPayload
deriving DecidableEq, Repr

/-- `if callable(preprocess_files): task_files = preprocess_files(task_files)`. -/
def apply_preprocess (pp : Option (List TaskFile → List TaskFile))
    (l : List TaskFile) : List TaskFile :=
  match pp with
  | some f => f l
  | none => l

/-- The tail of `download_magnetic` from the point the task-creation
request is posted: builds the body, posts it, and maps `HttpStatus == 0`
to outcome `1`, anything else (including a decode exception) to `0`. -/
def submit_task (env : MagnetEnv) (device_id magnetic_link task_name : String)
    (task_file_count : Nat) (task_files : List TaskFile)
    (target_parent_id : Option String) (calls : List NetCall) : MagnetResult :=
  let body : TaskPayload :=
    { type := "user#download-url"
      name := task_name
      file_name := task_name
      file_size := toString (task_files.map TaskFile.file_size).sum
      space := device_id
      target := device_id
      url := magnetic_link
      total_file_count := toString task_file_count
      parent_folder_id := target_parent_id
      sub_file_index := String.intercalate "," (task_files.map fun i => toString i.index)
      file_id := "" }
  let calls := calls ++ [NetCall.taskCreate]
  match env.taskResp with
  | .raise => ⟨0, calls, some body⟩
  | .ok hs => if hs = some 0 then ⟨1, calls, some body⟩ else ⟨0, calls, some body⟩

/-- Method `download_magnetic`, with the client state (`_device_id`,
`_parent_folder_id`) and the decoded responses passed explicitly.  The
whole body runs under `try/except` returning `0` on any exception, so
every `raise` branch of the environment yields outcome `0`. -/
def download_magnetic (env : MagnetEnv) (device_id parent_folder_id : String)
    (magnetic_link : String) (sub_dir : String)
    (preprocess_files : Option (List TaskFile → List TaskFile)) : MagnetResult :=
  match env.resourceResp with
  | .raise => ⟨0, [.resourceList], none⟩
  | .ok (status, resources) =>
    if status ≠ 200 then ⟨0, [.resourceList], none⟩
    else
      match resources with
      | .nil => ⟨0, [.resourceList], none⟩
      | .cons r0 _ =>
        let task_name := r0.name
        match env.completedResp with
        | .raise => ⟨0, [.resourceList, .taskList], none⟩
        | .ok ct =>
          match env.uncompletedResp with
          | .raise => ⟨0, [.resourceList, .taskList, .taskList], none⟩
          | .ok ut =>
            let all_task_names :=
              (completed_tasks ct ++ uncompleted_tasks ut).map TaskInfo.name
            if task_name ∈ all_task_names then
              ⟨2, [.resourceList, .taskList, .taskList], none⟩
            else
              let task_file_count := r0.file_count
              let task_files := apply_preprocess preprocess_files (helper resources)
              if sub_dir ≠ "" then
                if '/' ∈ sub_dir.data then
                  ⟨0, [.resourceList, .taskList, .taskList], none⟩
                else
                  match env.folderResp with
                  | .raise =>
                      ⟨0, [.resourceList, .taskList, .taskList, .folderCreate], none⟩
                  | .ok fid =>
                      submit_task env device_id magnetic_link task_name
                        task_file_count task_files fid
                        [.resourceList, .taskList, .taskList, .folderCreate]
              else
                submit_task env device_id magnetic_link task_name
                  task_file_count task_files (some parent_folder_id)
                  [.resourceList, .taskList, .taskList]

/-- Token cache of the client: `_token_str` and `_token_time`. -/
structure AuthState where
  token_str : Option String
  token_time : Nat
deriving DecidableEq, Repr

/-- Outcome of the entry-page fetch of `get_pan_auth`: a raised exception,
or a status code together with the list of matches of the fixed uiauth
text pattern found in the response body
(the regex search itself is kept abstract; its result list is part of the
environment). -/
inductive FetchResult where
  | raise
  | resp (status : Nat) (found : List String)
deriving DecidableEq, Repr

/-- Result of a `get_pan_auth` call: the returned token string, the token
cache after the call, and whether a fetch against the entry page was
performed. -/
structure AuthResult where
  token : String
  state : AuthState
  fetched : Bool
deriving DecidableEq, Repr

/-- The fetch path of `get_pan_auth` (entered on a cache miss): a raised
request exception or a non-200 status or an empty match list yield `""`
and leave the cache unchanged; the first match is cached with the current
timestamp and returned. -/
def get_pan_auth_fetch (st : AuthState) (now : Nat) (fetch : FetchResult) : AuthResult :=
  match fetch with
  | .raise => ⟨"", st, true⟩
  | .resp status found =>
    if status ≠ 200 then ⟨"", st, true⟩
    else
      match found with
      | [] => ⟨"", st, true⟩
      | m :: _ => ⟨m, ⟨some m, now⟩, true⟩

/-- Method `get_pan_auth`: returns the cached token without fetching when
`_token_str is not None and _token_time + 600 > int(time.time())`,
otherwise runs the fetch path. -/
def get_pan_auth (st : AuthState) (now : Nat) (fetch : FetchResult) : AuthResult :=
  match st.token_str with
  | some t =>
    if st.token_time + 600 > now then ⟨t, st, false⟩
    else get_pan_auth_fetch st now fetch
  | none => get_pan_auth_fetch st now fetch

/-- Outcome of the patch request of a task-control operation: a raised
exception (request or JSON decode), or a status code with the optional
`error_code` field of the decoded body. -/
inductive CtlResp where
  | raise
  | resp (status : Nat) (error_code : Option Int)
deriving DecidableEq, Repr

/-- The `if not self._device_id: self._device_id = self.get_device_id()`
prelude of the task-control operations: a cached non-empty id is used
as-is (`not d` is truthy for `None` and `""`), otherwise the outcome of
`get_device_id` (which raises on failure) decides. -/
def ensure_device_id (device_id : Option String)
    (device_fetch : JsonOutcome String) : JsonOutcome String :=
  match device_id with
  | some d => if d = "" then device_fetch else .ok d
  | none => device_fetch

/-- The JSON body of a task-control patch request. -/
structure PatchBody where
  space : String
  type : String
  id : String
  spec : String
deriving DecidableEq, Repr

/-- Method `delete_task`: resolves the device id (an exception gives
`False`), posts a patch request with phase spec `delete`, calls
`raise_for_status()` when the status is not 200 (which raises exactly for
statuses `>= 400`, caught into `False`), and returns `True` iff
the error code read with default 0 equals 0. -/
def delete_task (device_id : Option String) (device_fetch : JsonOutcome String)
    (task_id : String) (resp : CtlResp) : Bool × Option PatchBody :=
  match ensure_device_id device_id device_fetch with
  | .raise => (false, none)
  | .ok d =>
    let body : PatchBody :=
      ⟨d, "user#download-url", task_id, "\x7b\"phase\":\"delete\"\x7d"⟩
    match resp with
    | .raise => (false, some body)
    | .resp status ec =>
      if 400 ≤ status then (false, some body)
      else if ec.getD 0 = 0 then (true, some body) else (false, some body)

/-- Method `pause_task`: resolves the device id, posts a patch request
with phase spec `pause` (no status check), and returns `True` iff
the error code read with default 0 equals 0; exceptions give `False`. -/
def pause_task (device_id : Option String) (device_fetch : JsonOutcome String)
    (task_id : String) (resp : CtlResp) : Bool × Option PatchBody :=
  match ensure_device_id device_id device_fetch with
  | .raise => (false, none)
  | .ok d =>
    let body : PatchBody :=
      ⟨d, "user#download-url", task_id, "\x7b\"phase\":\"pause\"\x7d"⟩
    match resp with
    | .raise => (false, some body)
    | .resp _ ec =>
      if ec.getD 0 = 0 then (true, some body) else (false, some body)

/-- Method `start_task`: resolves the device id, posts a patch request
with phase spec `running` (no status check), and returns `True` iff
the error code read with default 0 equals 0; exceptions give `False`. -/
def start_task (device_id : Option String) (device_fetch : JsonOutcome String)
    (task_id : String) (resp : CtlResp) : Bool × Option PatchBody :=
  match ensure_device_id device_id device_fetch with
  | .raise => (false, none)
  | .ok d =>
    let body : PatchBody :=
      ⟨d, "user#download-url", task_id, "\x7b\"phase\":\"running\"\x7d"⟩
    match resp with
    | .raise => (false, some body)
    | .resp _ ec =>
      if ec.getD 0 = 0 then (true, some body) else (false, some body)

/-- Concrete raw task record used to exhibit the duplicate-name check. -/
def rawDup : RawTask := ⟨"Dup", 5, none, "/downloads", none⟩

/-- Concrete environment where the resolved resource name `Dup` is already
present among the completed tasks. -/
def envC1 : MagnetEnv :=
  { resourceResp := .ok (200, .cons (.file (some 0) "Dup" 7 1) .nil)
    completedResp := .ok (some [rawDup])
    uncompletedResp := .ok none
    folderResp := .raise
    taskResp := .raise }

/-- Concrete two-file resource forest with declared indices 0 and 1. -/
def resForestTwo : ResourceList :=
  .cons (.file (some 0) "TwoFiles" 100 2)
    (.cons (.file (some 1) "b" 200 2) .nil)

/-- Concrete environment resolving to `resForestTwo`, with empty task
listings and a successful task creation. -/
def envC3 : MagnetEnv :=
  { resourceResp := .ok (200, resForestTwo)
    completedResp := .ok none
    uncompletedResp := .ok none
    folderResp := .raise
    taskResp := .ok (some 0) }

/-- The task-creation body produced by running `download_magnetic` on
`envC3` with a list-reversing preprocess function. -/
def pC3 : TaskPayload :=
  { type := "user#download-url"
    name := "TwoFiles"
    file_name := "TwoFiles"
    file_size := "300"
    space := "dev"
    target := "dev"
    url := "magnet:?xt=a"
    total_file_count := "2"
    parent_folder_id := some "root"
    sub_file_index := "1,0"
    file_id := "" }

/-- Concrete single-file resource of size 1 GiB with declared index 0. -/
def fileC5 : Resource := .file (some 0) "Sample.Movie" 1073741824 1

/-- Concrete environment resolving to the single 1 GiB file, with empty
task listings and a successful task creation. -/
def envC5 : MagnetEnv :=
  { resourceResp := .ok (200, .cons fileC5 .nil)
    completedResp := .ok none
    uncompletedResp := .ok (some [])
    folderResp := .raise
    taskResp := .ok (some 0) }

/-- The task-creation body produced by running `download_magnetic` on
`envC5` with no preprocess function. -/
def pC5 : TaskPayload :=
  { type := "user#download-url"
    name := "Sample.Movie"
    file_name := "Sample.Movie"
    file_size := "1073741824"
    space := "dev"
    target := "dev"
    url := "magnet:?xt=s"
    total_file_count := "1"
    parent_folder_id := some "root"
    sub_file_index := "0"
    file_id := "" }

/-- Concrete environment with a resolvable single-file resource and empty
task listings, used with a multilevel subdirectory argument. -/
def envC6 : MagnetEnv :=
  { resourceResp := .ok (200, .cons (.file (some 0) "M" 7 1) .nil)
    completedResp := .ok none
    uncompletedResp := .ok none
    folderResp := .raise
    taskResp := .raise }

/-- Concrete environment whose resource-listing request raises. -/
def envC7 : MagnetEnv :=
  { resourceResp := .raise
    completedResp := .ok none
    uncompletedResp := .ok none
    folderResp := .raise
    taskResp := .raise }

/-- Success condition of pause_task and start_task on the decoded patch
response: a response was decoded and its error_code field is 0 or absent. -/
def ctl_error_code_ok : CtlResp → Prop
  | .raise => False
  | .resp _ ec => ec.getD 0 = 0

/-- Success condition of delete_task: additionally the status avoided the
range where raise_for_status raises. -/
def ctl_delete_ok : CtlResp → Prop
  | .raise => False
  | .resp s ec => s < 400 ∧ ec.getD 0 = 0

/-- The truthiness-based index defaulting agrees with `Option.getD 0`. -/
theorem fileIndexOrZero_eq_getD (fi : Option Nat) : fileIndexOrZero fi = fi.getD 0 := by
  match fi with
  | none => rfl
  | some 0 => rfl
  | some (n + 1) => rfl

/-- Flattening returns one entry per file node of the forest. -/
theorem helper_length : ∀ rs : ResourceList, (helper rs).length = countFiles rs
  | .nil => rfl
  | .cons (.file _ _ _ _) rest => by
      simp [helper, countFiles, helper_length rest, Nat.add_comm]
  | .cons (.dir _ _ children) rest => by
      simp [helper, countFiles, helper_length children, helper_length rest]

/-- The body posted by `submit_task`, independent of the response. -/
theorem submit_task_payload (env : MagnetEnv) (d link nm : String) (cnt : Nat)
    (files : List TaskFile) (tgt : Option String) (calls : List NetCall) :
    (submit_task env d link nm cnt files tgt calls).payload =
      some { type := "user#download-url"
             name := nm
             file_name := nm
             file_size := toString (files.map TaskFile.file_size).sum
             space := d
             target := d
             url := link
             total_file_count := toString cnt
             parent_folder_id := tgt
             sub_file_index := String.intercalate "," (files.map fun i => toString i.index)
             file_id := "" } := by
  unfold submit_task
  cases env.taskResp with
  | raise => rfl
  | ok hs =>
    by_cases h : hs = some 0 <;> simp [h]

/-- `submit_task` only ever returns outcome 0 or 1. -/
theorem submit_task_outcome (env : MagnetEnv) (d link nm : String) (cnt : Nat)
    (files : List TaskFile) (tgt : Option String) (calls : List NetCall) :
    (submit_task env d link nm cnt files tgt calls).outcome = 0 ∨
    (submit_task env d link nm cnt files tgt calls).outcome = 1 := by
  unfold submit_task
  cases env.taskResp with
  | raise => exact Or.inl rfl
  | ok hs =>
    by_cases h : hs = some 0 <;> simp [h]

/-- A raised task-creation response makes `submit_task` return outcome 0. -/
theorem submit_task_outcome_raise (env : MagnetEnv) (d link nm : String) (cnt : Nat)
    (files : List TaskFile) (tgt : Option String) (calls : List NetCall)
    (h : env.taskResp = .raise) :
    (submit_task env d link nm cnt files tgt calls).outcome = 0 := by
  unfold submit_task
  rw [h]

/-- Characterization of the task-creation body when one was posted: the
task name comes from the first root resource, the aggregate size and the
index list come from the post-preprocess flattened list, and the declared
total file count comes from the pre-preprocess resource metadata. -/
theorem download_magnetic_payload_fields (env : MagnetEnv)
    (d pf link sd : String) (pp : Option (List TaskFile → List TaskFile))
    (r0 : Resource) (rest : ResourceList)
    (hres : env.resourceResp = .ok (200, .cons r0 rest)) (p : TaskPayload)
    (hp : (download_magnetic env d pf link sd pp).payload = some p) :
    p.name = r0.name ∧
    p.file_size =
      toString (((apply_preprocess pp (helper (.cons r0 rest))).map TaskFile.file_size).sum) ∧
    p.total_file_count = toString r0.file_count ∧
    p.sub_file_index = String.intercalate ","
      ((apply_preprocess pp (helper (.cons r0 rest))).map fun i => toString i.index) := by
  unfold download_magnetic at hp
  rw [hres] at hp
  dsimp only at hp
  rw [if_neg (by decide)] at hp
  rcases hc : env.completedResp with _ | ct <;> rw [hc] at hp
  · simp at hp
  rcases hu : env.uncompletedResp with _ | ut <;> rw [hu] at hp
  · simp at hp
  simp only at hp
  split at hp
  · simp at hp
  split at hp
  · split at hp
    · simp at hp
    · rcases hf : env.folderResp with _ | fid <;> rw [hf] at hp
      · simp at hp
      · rw [submit_task_payload] at hp
        obtain rfl := Option.some.inj hp
        exact ⟨rfl, rfl, rfl, rfl⟩
  · rw [submit_task_payload] at hp
    obtain rfl := Option.some.inj hp
    exact ⟨rfl, rfl, rfl, rfl⟩

/-- Every run of `download_magnetic` ends in outcome 0, 1 or 2. -/
theorem download_magnetic_outcome_cases (env : MagnetEnv) (d pf link sd : String)
    (pp : Option (List TaskFile → List TaskFile)) :
    (download_magnetic env d pf link sd pp).outcome = 0 ∨
    (download_magnetic env d pf link sd pp).outcome = 1 ∨
    (download_magnetic env d pf link sd pp).outcome = 2 := by
  unfold download_magnetic
  split
  · exact Or.inl rfl
  split
  · exact Or.inl rfl
  split
  · exact Or.inl rfl
  dsimp only
  split
  · exact Or.inl rfl
  split
  · exact Or.inl rfl
  split
  · exact Or.inr (Or.inr rfl)
  split
  · split
    · exact Or.inl rfl
    split
    · exact Or.inl rfl
    · exact (submit_task_outcome _ _ _ _ _ _ _ _).imp id Or.inl
  · exact (submit_task_outcome _ _ _ _ _ _ _ _).imp id Or.inl

/-- A raised resource-listing response yields outcome 0. -/
theorem download_magnetic_resource_raise (env : MagnetEnv) (d pf link sd : String)
    (pp : Option (List TaskFile → List TaskFile))
    (h : env.resourceResp = .raise) :
    (download_magnetic env d pf link sd pp).outcome = 0 := by
  unfold download_magnetic
  rw [h]

/-- A raised completed-task listing yields outcome 0. -/
theorem download_magnetic_completed_raise (env : MagnetEnv) (d pf link sd : String)
    (pp : Option (List TaskFile → List TaskFile))
    (h : env.completedResp = .raise) :
    (download_magnetic env d pf link sd pp).outcome = 0 := by
  unfold download_magnetic
  split
  · rfl
  split
  · rfl
  split
  · rfl
  dsimp only
  rw [h]

/-- A raised uncompleted-task listing yields outcome 0. -/
theorem download_magnetic_uncompleted_raise (env : MagnetEnv) (d pf link sd : String)
    (pp : Option (List TaskFile → List TaskFile))
    (h : env.uncompletedResp = .raise) :
    (download_magnetic env d pf link sd pp).outcome = 0 := by
  unfold download_magnetic
  split
  · rfl
  split
  · rfl
  split
  · rfl
  dsimp only
  split
  · rfl
  rw [h]

/-- A raised task-creation response yields outcome 0 or (when the
duplicate check fired first) 2, never 1. -/
theorem download_magnetic_task_raise (env : MagnetEnv) (d pf link sd : String)
    (pp : Option (List TaskFile → List TaskFile))
    (h : env.taskResp = .raise) :
    (download_magnetic env d pf link sd pp).outcome = 0 ∨
    (download_magnetic env d pf link sd pp).outcome = 2 := by
  unfold download_magnetic
  split
  · exact Or.inl rfl
  split
  · exact Or.inl rfl
  split
  · exact Or.inl rfl
  dsimp only
  split
  · exact Or.inl rfl
  split
  · exact Or.inl rfl
  split
  · exact Or.inr rfl
  split
  · split
    · exact Or.inl rfl
    split
    · exact Or.inl rfl
    · exact Or.inl (submit_task_outcome_raise _ _ _ _ _ _ _ _ h)
  · exact Or.inl (submit_task_outcome_raise _ _ _ _ _ _ _ _ h)

/-- The full result of a run that hits the duplicate-name check. -/
theorem download_magnetic_duplicate_result (env : MagnetEnv)
    (d pf link sd : String) (pp : Option (List TaskFile → List TaskFile))
    (r0 : Resource) (rest : ResourceList) (ct ut : Option (List RawTask))
    (hres : env.resourceResp = .ok (200, .cons r0 rest))
    (hct : env.completedResp = .ok ct)
    (hut : env.uncompletedResp = .ok ut)
    (hdup : r0.name ∈ (completed_tasks ct ++ uncompleted_tasks ut).map TaskInfo.name) :
    download_magnetic env d pf link sd pp =
      ⟨2, [.resourceList, .taskList, .taskList], none⟩ := by
  unfold download_magnetic
  rw [hres]
  dsimp only
  rw [if_neg (by decide)]
  rw [hct, hut]
  dsimp only
  rw [if_pos hdup]

/-- C1: for every task name present in the union of names returned by
completed_tasks and uncompleted_tasks at submission time, download_magnetic
on a magnet whose resolved resource name equals that name returns
AlreadyExists (2) and issues no folder-creation call and no task-creation
call. -/
theorem c1_duplicate_name_returns_already_exists (env : MagnetEnv)
    (d pf link sd : String) (pp : Option (List TaskFile → List TaskFile))
    (r0 : Resource) (rest : ResourceList) (ct ut : Option (List RawTask))
    (hres : env.resourceResp = .ok (200, .cons r0 rest))
    (hct : env.completedResp = .ok ct)
    (hut : env.uncompletedResp = .ok ut)
    (hdup : r0.name ∈ (completed_tasks ct ++ uncompleted_tasks ut).map TaskInfo.name) :
    (download_magnetic env d pf link sd pp).outcome = 2 ∧
    NetCall.folderCreate ∉ (download_magnetic env d pf link sd pp).calls ∧
    NetCall.taskCreate ∉ (download_magnetic env d pf link sd pp).calls := by
  rw [download_magnetic_duplicate_result env d pf link sd pp r0 rest ct ut hres hct hut hdup]
  exact ⟨rfl, by decide, by decide⟩

/-- Witness for C1 at a concrete environment where the resolved name Dup
is already among the completed tasks. -/
theorem c1_witness :
    (download_magnetic envC1 "dev" "root" "magnet:?xt=d" "" none).outcome = 2 ∧
    NetCall.folderCreate ∉ (download_magnetic envC1 "dev" "root" "magnet:?xt=d" "" none).calls ∧
    NetCall.taskCreate ∉ (download_magnetic envC1 "dev" "root" "magnet:?xt=d" "" none).calls :=
  c1_duplicate_name_returns_already_exists envC1 "dev" "root" "magnet:?xt=d" "" none
    (.file (some 0) "Dup" 7 1) .nil (some [rawDup]) none rfl rfl rfl (by decide)

/-- The size filter agrees with a plain list filter on every input. -/
theorem filter_file_by_size_eq_filter (l : List TaskFile) (mn mx : Nat) :
    filter_file_by_size l mn mx =
      l.filter (fun i => decide (mn ≤ i.file_size ∧ i.file_size ≤ mx)) := by
  cases l with
  | nil => rfl
  | cons a as => rfl

/-- C2: filter_file_by_size returns exactly the entries whose size lies in
the inclusive range, preserving the relative order of the input, and its
default bounds are 524288000 and 42949672960 bytes. -/
theorem c2_filter_file_by_size_spec (l : List TaskFile) (mn mx : Nat) :
    List.Sublist (filter_file_by_size l mn mx) l ∧
    (∀ x : TaskFile, x ∈ filter_file_by_size l mn mx ↔
      (x ∈ l ∧ mn ≤ x.file_size ∧ x.file_size ≤ mx)) ∧
    (∀ x : TaskFile, (filter_file_by_size l mn mx).count x =
      if mn ≤ x.file_size ∧ x.file_size ≤ mx then l.count x else 0) ∧
    default_min_size = 524288000 ∧ default_max_size = 42949672960 := by
  rw [filter_file_by_size_eq_filter]
  refine ⟨List.filter_sublist l, ?_, ?_, rfl, rfl⟩
  · intro x
    simp [List.mem_filter]
  · intro x
    split
    · next h =>
      apply List.count_filter
      simpa using h
    · next h =>
      rw [List.count_eq_zero]
      simp [List.mem_filter]
      intro _ h1
      omega

/-- C4: flattening is a depth-first pre-order traversal where a file node
contributes exactly one TaskFile with its declared index (0 when absent)
and size, a directory node contributes only the contributions of its
children, the empty forest flattens to the empty list, and the flattened
list has exactly one entry per file node. -/
theorem c4_flatten_spec :
    helper .nil = [] ∧
    (∀ (fi : Option Nat) (n : String) (sz c : Nat) (rest : ResourceList),
      helper (.cons (.file fi n sz c) rest) =
        { index := fi.getD 0, file_name := n, file_size := sz } :: helper rest) ∧
    (∀ (n : String) (c : Nat) (children rest : ResourceList),
      helper (.cons (.dir n c children) rest) = helper children ++ helper rest) ∧
    (∀ rs : ResourceList, (helper rs).length = countFiles rs) := by
  refine ⟨rfl, ?_, fun n c ch rest => rfl, helper_length⟩
  intro fi n sz c rest
  rw [helper, fileIndexOrZero_eq_getD]

/-- Counterexample to C3: with a list-reversing preprocess function the
submitted sub_file_index is 1,0 — the order the filter returned — while
the indices of the flattened list in original discovery order join to 0,1. -/
theorem c3_counterexample :
    (download_magnetic envC3 "dev" "root" "magnet:?xt=a" "" (some List.reverse)).payload =
      some pC3 ∧
    pC3.sub_file_index = "1,0" ∧
    String.intercalate "," ((helper resForestTwo).map fun i => toString i.index) = "0,1" ∧
    ("1,0" : String) ≠ "0,1" := by
  refine ⟨by decide, rfl, by decide, by decide⟩

/-- C3 (amended): the submitted sub_file_index consists of the index
fields of the post-preprocess TaskFile list in the order the preprocess
function returned them (equal to discovery order only when the function
preserves it). -/
theorem c3_sub_file_index_follows_filter_output (env : MagnetEnv)
    (d pf link sd : String) (pp : Option (List TaskFile → List TaskFile))
    (r0 : Resource) (rest : ResourceList)
    (hres : env.resourceResp = .ok (200, .cons r0 rest)) (p : TaskPayload)
    (hp : (download_magnetic env d pf link sd pp).payload = some p) :
    p.sub_file_index = String.intercalate ","
      ((apply_preprocess pp (helper (.cons r0 rest))).map fun i => toString i.index) :=
  (download_magnetic_payload_fields env d pf link sd pp r0 rest hres p hp).2.2.2

/-- Witness for the amended C3 at the concrete reversing run. -/
theorem c3_witness : pC3.sub_file_index = "1,0" :=
  c3_sub_file_index_follows_filter_output envC3 "dev" "root" "magnet:?xt=a" ""
    (some List.reverse) (.file (some 0) "TwoFiles" 100 2)
    (.cons (.file (some 1) "b" 200 2) .nil) rfl pC3 (by decide)

/-- C5: the file_size field of the task-creation payload is the decimal
rendering of the sum of sizes of the post-preprocess TaskFile list, while
params.total_file_count is the decimal rendering of the file_count
declared in the resource metadata, independent of the preprocess step. -/
theorem c5_payload_size_postfilter_count_prefilter (env : MagnetEnv)
    (d pf link sd : String) (pp : Option (List TaskFile → List TaskFile))
    (r0 : Resource) (rest : ResourceList)
    (hres : env.resourceResp = .ok (200, .cons r0 rest)) (p : TaskPayload)
    (hp : (download_magnetic env d pf link sd pp).payload = some p) :
    p.file_size =
      toString (((apply_preprocess pp (helper (.cons r0 rest))).map TaskFile.file_size).sum) ∧
    p.total_file_count = toString r0.file_count :=
  ⟨(download_magnetic_payload_fields env d pf link sd pp r0 rest hres p hp).2.1,
   (download_magnetic_payload_fields env d pf link sd pp r0 rest hres p hp).2.2.1⟩

/-- Witness for C5 at the concrete 1 GiB single-file environment. -/
theorem c5_witness : pC5.file_size = "1073741824" ∧ pC5.total_file_count = "1" :=
  c5_payload_size_postfilter_count_prefilter envC5 "dev" "root" "magnet:?xt=s" "" none
    fileC5 .nil rfl pC5 (by decide)

/-- Counterexample to C6: on a run with a multilevel sub_dir the outcome
is Failed, but network calls were issued before the check — the resource
listing and the two task listings — so no network call at all is false. -/
theorem c6_counterexample :
    (download_magnetic envC6 "dev" "root" "magnet:?xt=b" "a/b" none).outcome = 0 ∧
    (download_magnetic envC6 "dev" "root" "magnet:?xt=b" "a/b" none).calls =
      [.resourceList, .taskList, .taskList] ∧
    (download_magnetic envC6 "dev" "root" "magnet:?xt=b" "a/b" none).calls ≠ [] := by
  refine ⟨by decide, by decide, by decide⟩

/-- C6 (amended): when the flow reaches the subdirectory step (resources
resolved, the name is no duplicate) and sub_dir contains a slash,
download_magnetic returns Failed (0, returned as Python False) and issues
no folder-creation and no task-creation request; the resource-listing and
the two task-listing requests have already been issued. -/
theorem c6_slash_subdir_failed_no_creation (env : MagnetEnv)
    (d pf link sd : String) (pp : Option (List TaskFile → List TaskFile))
    (r0 : Resource) (rest : ResourceList) (ct ut : Option (List RawTask))
    (hres : env.resourceResp = .ok (200, .cons r0 rest))
    (hct : env.completedResp = .ok ct)
    (hut : env.uncompletedResp = .ok ut)
    (hnd : r0.name ∉ (completed_tasks ct ++ uncompleted_tasks ut).map TaskInfo.name)
    (hsd : sd ≠ "") (hslash : '/' ∈ sd.data) :
    (download_magnetic env d pf link sd pp).outcome = 0 ∧
    (download_magnetic env d pf link sd pp).calls =
      [.resourceList, .taskList, .taskList] ∧
    NetCall.folderCreate ∉ (download_magnetic env d pf link sd pp).calls ∧
    NetCall.taskCreate ∉ (download_magnetic env d pf link sd pp).calls := by
  have hr : download_magnetic env d pf link sd pp =
      ⟨0, [.resourceList, .taskList, .taskList], none⟩ := by
    unfold download_magnetic
    rw [hres]
    dsimp only
    rw [if_neg (by decide)]
    rw [hct, hut]
    dsimp only
    rw [if_neg hnd]
    rw [if_pos hsd, if_pos hslash]
  rw [hr]
  exact ⟨rfl, rfl, by decide, by decide⟩

/-- Witness for the amended C6 at the concrete multilevel-sub_dir run. -/
theorem c6_witness :
    (download_magnetic envC6 "dev" "root" "magnet:?xt=b" "a/b" none).outcome = 0 ∧
    (download_magnetic envC6 "dev" "root" "magnet:?xt=b" "a/b" none).calls =
      [.resourceList, .taskList, .taskList] ∧
    NetCall.folderCreate ∉ (download_magnetic envC6 "dev" "root" "magnet:?xt=b" "a/b" none).calls ∧
    NetCall.taskCreate ∉ (download_magnetic envC6 "dev" "root" "magnet:?xt=b" "a/b" none).calls :=
  c6_slash_subdir_failed_no_creation envC6 "dev" "root" "magnet:?xt=b" "a/b" none
    (.file (some 0) "M" 7 1) .nil none none rfl rfl rfl (by decide) (by decide) (by decide)

/-- C7: download_magnetic always returns one of the tri-state outcomes 0,
1 or 2, and every modelled exception is converted into outcome 0 (a raised
task-creation response can also surface after the duplicate check already
returned 2; a creation outcome 1 is impossible then). -/
theorem c7_outcome_tristate_never_raises (env : MagnetEnv) (d pf link sd : String)
    (pp : Option (List TaskFile → List TaskFile)) :
    ((download_magnetic env d pf link sd pp).outcome = 0 ∨
     (download_magnetic env d pf link sd pp).outcome = 1 ∨
     (download_magnetic env d pf link sd pp).outcome = 2) ∧
    (env.resourceResp = .raise → (download_magnetic env d pf link sd pp).outcome = 0) ∧
    (env.completedResp = .raise → (download_magnetic env d pf link sd pp).outcome = 0) ∧
    (env.uncompletedResp = .raise → (download_magnetic env d pf link sd pp).outcome = 0) ∧
    (env.taskResp = .raise →
      (download_magnetic env d pf link sd pp).outcome = 0 ∨
      (download_magnetic env d pf link sd pp).outcome = 2) :=
  ⟨download_magnetic_outcome_cases env d pf link sd pp,
   download_magnetic_resource_raise env d pf link sd pp,
   download_magnetic_completed_raise env d pf link sd pp,
   download_magnetic_uncompleted_raise env d pf link sd pp,
   download_magnetic_task_raise env d pf link sd pp⟩

/-- Witness for C7 at a concrete environment whose resource-listing
request raises: the outcome is Failed. -/
theorem c7_witness :
    (download_magnetic envC7 "dev" "root" "magnet:?xt=e" "" none).outcome = 0 :=
  (c7_outcome_tristate_never_raises envC7 "dev" "root" "magnet:?xt=e" "" none).2.1 rfl

/-- The fetch path of get_pan_auth always reports that a fetch happened. -/
theorem get_pan_auth_fetch_fetched (st : AuthState) (now : Nat) (fetch : FetchResult) :
    (get_pan_auth_fetch st now fetch).fetched = true := by
  unfold get_pan_auth_fetch
  cases fetch with
  | raise => rfl
  | resp status found =>
    dsimp only
    split
    · rfl
    · cases found <;> rfl

/-- C8: get_pan_auth returns the cached token without fetching when the
token was obtained less than 600 seconds before the call; otherwise it
fetches, returning and caching (with the current timestamp) the first
pattern match, and returning the empty string without raising when the
request errors, the status is not 200, or no match is found. -/
theorem c8_get_pan_auth_cache_and_fetch (st : AuthState) (now : Nat) (fetch : FetchResult) :
    (∀ t : String, st.token_str = some t → now < st.token_time + 600 →
      get_pan_auth st now fetch = ⟨t, st, false⟩) ∧
    ((st.token_str = none ∨ st.token_time + 600 ≤ now) →
      (get_pan_auth st now fetch).fetched = true ∧
      (fetch = .raise → get_pan_auth st now fetch = ⟨"", st, true⟩) ∧
      (∀ status found, fetch = .resp status found →
        (status ≠ 200 → get_pan_auth st now fetch = ⟨"", st, true⟩) ∧
        (status = 200 → found = [] → get_pan_auth st now fetch = ⟨"", st, true⟩) ∧
        (∀ m ms, status = 200 → found = m :: ms →
          get_pan_auth st now fetch = ⟨m, ⟨some m, now⟩, true⟩))) := by
  constructor
  · intro t ht hlt
    unfold get_pan_auth
    rw [ht]
    dsimp only
    rw [if_pos hlt]
  · intro hmiss
    have hfetch : get_pan_auth st now fetch = get_pan_auth_fetch st now fetch := by
      unfold get_pan_auth
      rcases hts : st.token_str with _ | t
      · rfl
      · dsimp only
        rcases hmiss with h | h
        · rw [hts] at h
          exact absurd h (by simp)
        · rw [if_neg (by omega)]
    rw [hfetch]
    refine ⟨get_pan_auth_fetch_fetched st now fetch, ?_, ?_⟩
    · intro hf
      rw [hf]
      rfl
    · intro status found hf
      rw [hf]
      refine ⟨?_, ?_, ?_⟩
      · intro hs
        unfold get_pan_auth_fetch
        dsimp only
        rw [if_pos hs]
      · intro hs hfound
        subst hs
        subst hfound
        rfl
      · intro m ms hs hfound
        subst hs
        subst hfound
        rfl

/-- Witness for C8: a token cached 200 seconds ago is returned unchanged
without a fetch. -/
theorem c8_witness :
    get_pan_auth ⟨some "tok", 100⟩ 300 .raise = ⟨"tok", ⟨some "tok", 100⟩, false⟩ :=
  (c8_get_pan_auth_cache_and_fetch ⟨some "tok", 100⟩ 300 .raise).1 "tok" rfl (by omega)

/-- C9: pause_task, start_task and delete_task return True exactly when no
exception occurred along the way (device-id resolution and the patch
request succeeded; for delete_task the status additionally avoided the
raise_for_status range) and the error_code field of the response is 0 or
absent; every exception is converted to False. -/
theorem c9_control_ops_error_code (device_id : Option String)
    (device_fetch : JsonOutcome String) (task_id : String) (r : CtlResp) :
    ((pause_task device_id device_fetch task_id r).1 = true ↔
      (ensure_device_id device_id device_fetch ≠ .raise ∧ ctl_error_code_ok r)) ∧
    ((start_task device_id device_fetch task_id r).1 = true ↔
      (ensure_device_id device_id device_fetch ≠ .raise ∧ ctl_error_code_ok r)) ∧
    ((delete_task device_id device_fetch task_id r).1 = true ↔
      (ensure_device_id device_id device_fetch ≠ .raise ∧ ctl_delete_ok r)) := by
  rcases hd : ensure_device_id device_id device_fetch with _ | dd
  · rcases r with _ | ⟨s, ec⟩ <;>
      simp [pause_task, start_task, delete_task, hd, ctl_error_code_ok, ctl_delete_ok]
  rcases r with _ | ⟨s, ec⟩
  · simp [pause_task, start_task, delete_task, hd, ctl_error_code_ok, ctl_delete_ok]
  refine ⟨?_, ?_, ?_⟩
  · simp only [pause_task, hd]
    by_cases h : ec.getD 0 = 0 <;> simp [h, ctl_error_code_ok]
  · simp only [start_task, hd]
    by_cases h : ec.getD 0 = 0 <;> simp [h, ctl_error_code_ok]
  · simp only [delete_task, hd]
    by_cases h1 : 400 ≤ s
    · rw [if_pos h1]
      constructor
      · intro hf
        exact absurd hf (by simp)
      · rintro ⟨-, hs, -⟩
        omega
    · rw [if_neg h1]
      by_cases h2 : ec.getD 0 = 0
      · rw [if_pos h2]
        simp [ctl_delete_ok, h2]
        omega
      · rw [if_neg h2]
        constructor
        · intro hf
          exact absurd hf (by simp)
        · rintro ⟨-, -, hec⟩
          exact absurd hec h2

/-- Listing a non-absent raw record list maps each record. -/
theorem completed_tasks_some (l : List RawTask) :
    completed_tasks (some l) = l.map taskinfo_of_raw := by
  cases l <;> rfl

/-- Listing a non-absent raw record list maps each record. -/
theorem uncompleted_tasks_some (l : List RawTask) :
    uncompleted_tasks (some l) = l.map taskinfo_of_raw := by
  cases l <;> rfl

/-- C10: every TaskInfo produced by the completed or uncompleted task
listing has file_name equal to name, both being populated from the name
field of the raw record. -/
theorem c10_file_name_eq_name (completed uncompleted : Option (List RawTask))
    (t : TaskInfo) :
    (t ∈ completed_tasks completed → t.file_name = t.name) ∧
    (t ∈ uncompleted_tasks uncompleted → t.file_name = t.name) := by
  constructor
  · intro ht
    rcases completed with _ | ts
    · simp [completed_tasks] at ht
    · rw [completed_tasks_some] at ht
      obtain ⟨r, hr, rfl⟩ := List.mem_map.mp ht
      rfl
  · intro ht
    rcases uncompleted with _ | ts
    · simp [uncompleted_tasks] at ht
    · rw [uncompleted_tasks_some] at ht
      obtain ⟨r, hr, rfl⟩ := List.mem_map.mp ht
      rfl

/-- Witness for C10 at a concrete completed-task listing. -/
theorem c10_witness :
    (taskinfo_of_raw rawDup).file_name = (taskinfo_of_raw rawDup).name :=
  (c10_file_name_eq_name (some [rawDup]) none (taskinfo_of_raw rawDup)).1 (by decide)
